import Mathlib

/-
  Verification development for the blustream streaming server.

  The definitions below are a shallow embedding of the server sources:
    - src/common/include/blustream/common/types.h        (wire protocol records)
    - src/server/src/streaming_server.cpp                (StreamingServer, ClientConnection)
    - src/server/src/streaming_server_hw.cpp             (HardwareStreamingServer render loop)
    - src/server/src/webrtc_server.cpp / webrtc_session.cpp (WebRTCServer, WebRTCSession)
    - src/server/src/hardware_encoder.cpp                (HardwareEncoder performance stats)

  C++ machine integers are modelled as Int/Nat, C++ float quantities as Rat
  (arithmetic modelled exactly).  External collaborators (the VDS renderer and
  the video encoder, which live behind HueSpace/FFmpeg) are passed in as
  function parameters, mirroring how the server code calls into them.
-/

namespace Blustream

/-! ## Wire protocol (types.h lines 63-98) -/

/-- MessageType enum values used by the streaming server (types.h lines 63-77). -/
def msgType_CONFIG : Nat := 0x09

def msgType_FRAME : Nat := 0x0A

/-- MessageHeader (types.h lines 80-89).  The C++ struct is a POD whose fields
are only given values by explicit assignments; a field the server code never
assigns holds an indeterminate value on the wire.  We model each field as an
`Option`: `none` means "never assigned by the code path that built the header". -/
structure MessageHeader where
  magic : Option Nat
  version : Option Nat
  type : Option Nat
  payload_size : Option Nat
  sequence : Option Nat
  timestamp : Option Nat
  checksum : Option Nat
  reserved : Option Nat
deriving DecidableEq, Repr

/-- Header built by ClientConnection::send_loop for each frame
(streaming_server.cpp lines 731-737): it assigns magic, version, type = FRAME,
payload_size and timestamp, and nothing else. -/
def frameHeader (data : List Nat) (now_ms : Nat) : MessageHeader :=
  { magic := some 0x42535452
    version := some 1
    type := some msgType_FRAME
    payload_size := some data.length
    sequence := none
    timestamp := some now_ms
    checksum := none
    reserved := none }

/-- Header built by StreamingServer::handle_client for the initial CONFIG
message (streaming_server.cpp lines 587-591): it assigns magic, version,
type = CONFIG and payload_size, and nothing else. -/
def configHeader (stream_config_size : Nat) : MessageHeader :=
  { magic := some 0x42535452
    version := some 1
    type := some msgType_CONFIG
    payload_size := some stream_config_size
    sequence := none
    timestamp := none
    checksum := none
    reserved := none }

/-! ## ClientConnection (streaming_server.cpp lines 683-767) -/

/-- Per-connection state: `connected_` flag, the send queue (a std::queue with
no capacity bound) and the `bytes_sent_` counter. -/
structure ClientConnection where
  connected : Bool
  send_queue : List (List Nat)
  bytes_sent : Nat
deriving DecidableEq, Repr

/-- ClientConnection::send_frame (streaming_server.cpp lines 701-714): if not
connected return false; otherwise push the frame at the back of the send queue
and return true.  The push is unconditional: there is no capacity check. -/
def ClientConnection.send_frame (c : ClientConnection) (data : List Nat) :
    Bool × ClientConnection :=
  if c.connected = false then (false, c)
  else (true, { c with send_queue := c.send_queue ++ [data] })

/-- Enqueue a list of frames one after another without the sender loop
draining anything in between. -/
def enqueueAll (c : ClientConnection) (frames : List (List Nat)) : ClientConnection :=
  frames.foldl (fun acc d => (acc.send_frame d).2) c

/-- One iteration of ClientConnection::send_loop on a non-empty queue
(streaming_server.cpp lines 725-750): pop the front frame and write a FRAME
header followed by the payload.  Draining a queue of `frames` therefore writes
the messages below, in queue order; `clock` supplies the millisecond timestamp
observed at each write. -/
def sendLoopMessages : List (List Nat) → (Nat → Nat) → List (MessageHeader × List Nat)
  | [], _ => []
  | d :: rest, clock => (frameHeader d (clock 0), d) :: sendLoopMessages rest (fun i => clock (i + 1))

/-- Interleaved producer/consumer activity on one client's send queue:
`enq d` is StreamingServer::broadcast_frame calling send_frame (push at back),
`deq` is the send_loop thread popping the front element and writing it to the
socket (a `deq` on an empty queue is the condition-variable wait, which sends
nothing). -/
inductive QueueEvent where
  | enq (data : List Nat)
  | deq
deriving DecidableEq, Repr

/-- Run a sequence of queue events against a starting queue; returns the list
of frames written to the socket (in write order) and the final queue. -/
def runSendQueue : List QueueEvent → List (List Nat) → List (List Nat) × List (List Nat)
  | [], q => ([], q)
  | .enq d :: es, q => runSendQueue es (q ++ [d])
  | .deq :: es, [] => runSendQueue es []
  | .deq :: es, d :: q =>
      let r := runSendQueue es q
      (d :: r.1, r.2)

/-- The frames offered to the queue by broadcast_frame, in production order. -/
def enqueuedOf (es : List QueueEvent) : List (List Nat) :=
  es.filterMap (fun e => match e with | .enq d => some d | .deq => none)

/-- Sent frames form a sublist (ordered, duplication-free selection) of
`q₀ ++ enqueued`: the FIFO queue never reorders or duplicates. -/
theorem runSendQueue_sublist (es : List QueueEvent) (q₀ : List (List Nat)) :
    List.Sublist (runSendQueue es q₀).1 (q₀ ++ enqueuedOf es) := by
  induction es generalizing q₀ with
  | nil => simp [runSendQueue]
  | cons e es ih =>
    cases e with
    | enq d =>
      have h := ih (q₀ ++ [d])
      simpa [runSendQueue, enqueuedOf, List.append_assoc] using h
    | deq =>
      cases q₀ with
      | nil =>
        simpa [runSendQueue, enqueuedOf] using ih []
      | cons d q =>
        have h := ih q
        simpa [runSendQueue, enqueuedOf] using List.Sublist.cons₂ d h

/-! ## WebRTC session registry (webrtc_server.h lines 92-128, webrtc_server.cpp,
webrtc_session.cpp) -/

/-- WebRTCServer::SessionConfig (webrtc_server.h lines 92-109). -/
structure SessionConfig where
  session_id : String := ""
  width : Int := 1920
  height : Int := 1080
  fps : Rat := 30
  bitrate_kbps : Int := 5000
  quality : String := "auto"
  orientation : String := "XZ"
  animate : Bool := true
  animation_speed : Rat := 1
  animation_duration : Rat := 30
  paused : Bool := false
  current_slice : Int := -1
deriving DecidableEq, Repr

/-- WebRTCServer::ControlMessage::Type (webrtc_server.h lines 115-123). -/
inductive ControlType where
  | SLICE_ORIENTATION
  | ANIMATION_SPEED
  | ANIMATION_DURATION
  | PAUSE_RESUME
  | RESTART_ANIMATION
  | QUALITY_LEVEL
  | FRAME_RATE
deriving DecidableEq, Repr

/-- WebRTCServer::ControlMessage (webrtc_server.h lines 114-128); the
parameters map is a string-to-string key/value store. -/
structure ControlMessage where
  type : ControlType
  session_id : String
  parameters : List (String × String)
deriving DecidableEq, Repr

/-- `message.parameters.find(key)` / `.at(key)` on the parameters map. -/
def ControlMessage.getParam (m : ControlMessage) (key : String) : Option String :=
  (m.parameters.find? (fun p => p.1 = key)).map (fun p => p.2)

/-- The state of one WebRTCSession (webrtc_session.cpp): its id, config,
`active_` flag, whether create_media_stream installed a video source, the
`clients_` vector, the key set of the `peer_connections_` map, and the
session's send statistics. -/
structure WebRTCSession where
  session_id : String
  config : SessionConfig
  active : Bool
  video_source : Bool
  clients : List String
  peer_keys : List String
  frames_sent : Nat
  bytes_sent : Nat
deriving DecidableEq, Repr

/-- The WebRTCServer state the claims speak about: the `sessions_` map
(modelled as an association list with the same per-key behaviour as
std::unordered_map), the configured `max_sessions`, and the server-global
`animation_start_time_` (a steady-clock instant, modelled in Rat seconds). -/
structure ServerState where
  sessions : List (String × WebRTCSession)
  max_sessions : Nat
  animation_start : Rat
deriving DecidableEq, Repr

/-- `sessions_.find(session_id)` — the first (and, for well-formed states,
only) entry with the given key. -/
def lookupSess : List (String × WebRTCSession) → String → Option (String × WebRTCSession)
  | [], _ => none
  | p :: ps, sid => if p.1 = sid then some p else lookupSess ps sid

/-- `sessions_.erase(it)` where `it` is the entry found for `sid`. -/
def eraseSess : List (String × WebRTCSession) → String → List (String × WebRTCSession)
  | [], _ => []
  | p :: ps, sid => if p.1 = sid then ps else p :: eraseSess ps sid

/-- Writing back the (in-place mutated) session object held in the map slot
for `sid`. -/
def replaceSess : List (String × WebRTCSession) → String → WebRTCSession →
    List (String × WebRTCSession)
  | [], _, _ => []
  | p :: ps, sid, v =>
    if p.1 = sid then (p.1, v) :: replaceSess ps sid v else p :: replaceSess ps sid v

def findSession (st : ServerState) (sid : String) : Option (String × WebRTCSession) :=
  lookupSess st.sessions sid

/-- The session object as it exists right after `new WebRTCSession(...)`
followed by a successful `initialize` (webrtc_session.cpp lines 131-159):
active, media stream created, no clients yet. -/
def mkSession (sid : String) (config : SessionConfig) : WebRTCSession :=
  { session_id := sid
    config := config
    active := true
    video_source := true
    clients := []
    peer_keys := []
    frames_sent := 0
    bytes_sent := 0 }

/-- WebRTCServer::create_session (webrtc_server.cpp lines 249-305).
`gen` is the value generate_session_id() would return; `init_ok` is whether the
WebRTC collaborator calls inside WebRTCSession::initialize succeed.  The
function resolves the id, returns early (state unchanged) when the id already
exists, returns "" (state unchanged) when initialization fails, and otherwise
stores the new session.  Note: no check against `max_sessions` appears
anywhere in the source of create_session. -/
def create_session (gen : String) (init_ok : Bool) (st : ServerState)
    (session_config : SessionConfig) : String × ServerState :=
  let session_id := if session_config.session_id = "" then gen else session_config.session_id
  if (findSession st session_id).isSome then (session_id, st)
  else
    let config := { session_config with session_id := session_id }
    if init_ok = false then ("", st)
    else (session_id, { st with sessions := st.sessions ++ [(session_id, mkSession session_id config)] })

/-- WebRTCSession::remove_client (webrtc_session.cpp lines 234-247): erase the
client id from the `clients_` vector (std::find + erase of the first
occurrence) and erase its entry from the `peer_connections_` map. -/
def remove_client (sess : WebRTCSession) (cid : String) : WebRTCSession :=
  { sess with
      clients := sess.clients.erase cid
      peer_keys := sess.peer_keys.erase cid }

/-- WebRTCServer::leave_session (webrtc_server.cpp lines 325-339): if the
session exists, remove the client from it, then erase the session itself when
its client set has become empty. -/
def leave_session (st : ServerState) (sid cid : String) : ServerState :=
  match findSession st sid with
  | none => st
  | some found =>
    let sess' := remove_client found.2 cid
    if sess'.clients = [] then
      { st with sessions := eraseSess st.sessions sid }
    else
      { st with sessions := replaceSess st.sessions sid sess' }

/-- WebRTCSession::update_config (webrtc_session.cpp lines 382-385). -/
def update_config (sess : WebRTCSession) (c : SessionConfig) : WebRTCSession :=
  { sess with config := c }

/-- WebRTCServer::handle_control_message (webrtc_server.cpp lines 375-435).
The function returns void in C++ — its only effect is the state mutation, so
the model returns just the new state; no error value is reported to the
caller on any path.  `stof` models std::stof on the strings for which it is
defined, `now` the steady-clock instant read by RESTART_ANIMATION. -/
def handle_control_message (stof : String → Rat) (now : Rat) (st : ServerState)
    (m : ControlMessage) : ServerState :=
  match findSession st m.session_id with
  | none => st
  | some found =>
    let config := found.2.config
    let step : SessionConfig × Bool × Rat :=
      match m.type with
      | .SLICE_ORIENTATION =>
        match m.getParam "orientation" with
        | some v => ({ config with orientation := v }, true, st.animation_start)
        | none => (config, false, st.animation_start)
      | .ANIMATION_SPEED =>
        match m.getParam "speed" with
        | some v => ({ config with animation_speed := stof v }, true, st.animation_start)
        | none => (config, false, st.animation_start)
      | .PAUSE_RESUME =>
        match m.getParam "paused" with
        | some v => ({ config with paused := v = "true" }, true, st.animation_start)
        | none => (config, false, st.animation_start)
      | .RESTART_ANIMATION =>
        ({ config with current_slice := -1 }, true, now)
      | .QUALITY_LEVEL =>
        match m.getParam "quality" with
        | some v => ({ config with quality := v }, true, st.animation_start)
        | none => (config, false, st.animation_start)
      | _ => (config, false, st.animation_start)
    if step.2.1 then
      { st with
          animation_start := step.2.2
          sessions := replaceSess st.sessions m.session_id (update_config found.2 step.1) }
    else
      { st with animation_start := step.2.2 }

/-! ## Frame production (webrtc_server.cpp lines 437-537) -/

/-- C truncation toward zero (static_cast<int> on a float, the implicit
truncation in fmodf). -/
def ratTrunc (x : Rat) : Int :=
  if 0 ≤ x then ⌊x⌋ else ⌈x⌉

/-- C fmod / fmodf: a - b * trunc(a / b). -/
def cppFmod (a b : Rat) : Rat :=
  a - b * (ratTrunc (a / b) : Int)

/-- std::clamp(v, lo, hi). -/
def cppClamp (v lo hi : Int) : Int :=
  if v < lo then lo else if hi < v then hi else v

/-- The VDS renderer collaborator behind vds_manager_ (the HueSpace-backed
slicing/rendering library, excluded from the core per the spec): its volume
dimensions and its render function, taking the slice orientation, axis and
index set by the server plus the output width/height. -/
structure VDSModel where
  dims : Int → Int
  render : String → Int → Int → Int → Int → List Nat

/-- WebRTCServer::render_vds_frame (webrtc_server.cpp lines 511-537):
choose the slice axis from the orientation string, advance the slice index
from the animation clock only when `animate && !paused && current_slice < 0`,
then ask the renderer for a frame.  When paused the index simply stays at
`current_slice`; rendering itself is not skipped.  `sliceAxisOf` is the
axis selection at the top of the function (webrtc_server.cpp lines 517-520). -/
def sliceAxisOf (orientation : String) : Int :=
  if orientation = "XY" then 2
  else if orientation = "XZ" then 1
  else if orientation = "YZ" then 0
  else 2

def render_vds_frame (vds : Option VDSModel) (config : SessionConfig)
    (animation_time : Rat) : List Nat :=
  match vds with
  | none => []
  | some v =>
    let slice_axis : Int := sliceAxisOf config.orientation
    let slice_index : Int :=
      if config.animate = true ∧ config.paused = false ∧ config.current_slice < 0 then
        let progress := cppFmod (animation_time / config.animation_duration) 1
        let idx := ratTrunc (progress * (v.dims slice_axis : Int))
        cppClamp idx 0 (v.dims slice_axis - 1)
      else config.current_slice
    v.render config.orientation slice_axis slice_index config.width config.height

/-- WebRTCSession::send_frame (webrtc_session.cpp lines 356-375): when a
video source exists, count the frame as sent to the session's clients. -/
def session_send_frame (sess : WebRTCSession) (frame : List Nat) : WebRTCSession :=
  if sess.video_source then
    { sess with
        frames_sent := sess.frames_sent + 1
        bytes_sent := sess.bytes_sent + frame.length }
  else sess

/-- WebRTCServer::render_session (webrtc_server.cpp lines 480-509): compute
the animation time, render, encode (`enc` is the hardware-encoder
collaborator), and on non-empty encoder output publish the frame to the
session.  The Bool records whether a frame was published this tick. -/
def render_session (vds : Option VDSModel) (enc : List Nat → List Nat)
    (animation_start now : Rat) (sess : WebRTCSession) : WebRTCSession × Bool :=
  if sess.active = false then (sess, false)
  else
    let config := sess.config
    let animation_time := (now - animation_start) * config.animation_speed
    let rgb := render_vds_frame vds config animation_time
    if rgb = [] then (sess, false)
    else
      let encoded := enc rgb
      if encoded = [] then (sess, false)
      else (session_send_frame sess encoded, true)

/-- One pass of the per-tick body of WebRTCServer::render_loop
(webrtc_server.cpp lines 447-454): render every active session. -/
def render_tick (vds : Option VDSModel) (enc : List Nat → List Nat) (now : Rat)
    (st : ServerState) : ServerState :=
  { st with
      sessions := st.sessions.map (fun p =>
        if p.2.active then (p.1, (render_session vds enc st.animation_start now p.2).1) else p) }

/-! ## Tick scheduling of the three render loops (claim C7).
Times are in integer microseconds, matching the
std::chrono::microseconds arithmetic of the source. -/

/-- WebRTCServer::render_loop frame timing (webrtc_server.cpp lines 459-468):
`next += duration`; sleep when still in the future, otherwise reschedule from
now.  The WebRTCServer::Stats struct has no frames_dropped field and the loop
increments no drop counter; the second component is the (always zero)
increment it applies to such a counter. -/
def webrtc_tick_schedule (next now dur : Int) : Int × Nat :=
  let nextNew := next + dur
  if now < nextNew then (nextNew, 0) else (now, 0)

/-- StreamingServer::render_loop frame timing (streaming_server.cpp lines
406-408): unconditionally `next += duration` then sleep_until — a missed
deadline is never detected, the backlog is caught up tick by tick, and no
counter is touched. -/
def legacy_tick_schedule (next now dur : Int) : Int × Nat :=
  (next + dur, 0)

/-- HardwareStreamingServer::enhanced_render_loop frame timing
(streaming_server_hw.cpp lines 183-195): `next += duration`; when behind,
compute the whole number of frame periods of backlog, and when that exceeds 2,
reschedule from now and add the backlog size to stats_.frames_dropped. -/
def hw_tick_schedule (next now dur : Int) : Int × Nat :=
  let nextNew := next + dur
  if nextNew < now then
    let frames_behind := (now - nextNew).toNat / dur.toNat
    if 2 < frames_behind then (now, frames_behind) else (nextNew, 0)
  else (nextNew, 0)

/-! ## Encoder performance statistics (hardware_encoder.cpp lines 460-471) -/

/-- Result of *std::min_element / *std::max_element on a vector; the server
only ever applies them to the non-empty encode_times_ vector. -/
def list_min : List Rat → Rat
  | [] => 0
  | x :: xs => xs.foldl min x

def list_max : List Rat → Rat
  | [] => 0
  | x :: xs => xs.foldl max x

/-- The encoder's performance-tracking state: the rolling encode_times_
vector and the three derived Stats fields. -/
structure EncoderPerfState where
  encode_times : List Rat
  avg_encode_time_ms : Rat
  min_encode_time_ms : Rat
  max_encode_time_ms : Rat
deriving DecidableEq, Repr

/-- State at HardwareEncoder construction: no samples yet, stats zeroed. -/
def encoderPerfInit : EncoderPerfState :=
  { encode_times := []
    avg_encode_time_ms := 0
    min_encode_time_ms := 0
    max_encode_time_ms := 0 }

/-- HardwareEncoder::update_performance_stats (hardware_encoder.cpp lines
460-471): push the new sample, erase the front element when more than 60 are
stored, then recompute avg/min/max over the stored samples. -/
def update_performance_stats (s : EncoderPerfState) (t : Rat) : EncoderPerfState :=
  let pushed := s.encode_times ++ [t]
  let ts := if 60 < pushed.length then pushed.drop 1 else pushed
  { encode_times := ts
    avg_encode_time_ms := ts.sum / (ts.length : Rat)
    min_encode_time_ms := list_min ts
    max_encode_time_ms := list_max ts }

/-! ## Ordering of the first messages on a new client connection (claim C8).

On accept (streaming_server.cpp lines 554-580) the server constructs a
ClientConnection — whose constructor immediately starts the send_loop thread
(line 690) — pushes it into `clients_` (line 574, under clients_mutex_), and
only then spawns the detached handle_client thread (line 578) whose first
action is to write the CONFIG message (lines 585-601).  Concurrently the
render thread may call broadcast_frame (lines 606-622), which enqueues a
FRAME for every client currently in `clients_`, and the client's send_loop
thread writes any enqueued FRAME to the socket (lines 739-745).

We model the interleavings of these four events for one freshly accepted
client and one broadcast frame.  A trace is admissible when it contains each
event exactly once and respects the inter-thread causality of the source:
the push into clients_ precedes both the enqueue (broadcast only reaches
registered clients) and the CONFIG write (the handler thread is spawned after
the push), and the enqueue precedes the FRAME write (send_loop pops only
what was enqueued). -/

inductive ConnEvent where
  | addClient
  | enqueueFrame
  | writeFrame
  | writeConfig
deriving DecidableEq, Repr

def connBefore (tr : List ConnEvent) (a b : ConnEvent) : Prop :=
  tr.indexOf a < tr.indexOf b

instance (tr : List ConnEvent) (a b : ConnEvent) : Decidable (connBefore tr a b) := by
  unfold connBefore; infer_instance

def connAdmissible (tr : List ConnEvent) : Prop :=
  tr.count .addClient = 1 ∧ tr.count .enqueueFrame = 1 ∧
  tr.count .writeFrame = 1 ∧ tr.count .writeConfig = 1 ∧
  connBefore tr .addClient .enqueueFrame ∧
  connBefore tr .addClient .writeConfig ∧
  connBefore tr .enqueueFrame .writeFrame

instance (tr : List ConnEvent) : Decidable (connAdmissible tr) := by
  unfold connAdmissible; infer_instance

/-- The message types that reach the client's socket, in write order. -/
def socketWrites (tr : List ConnEvent) : List Nat :=
  tr.filterMap (fun e =>
    match e with
    | .writeFrame => some msgType_FRAME
    | .writeConfig => some msgType_CONFIG
    | _ => none)

/-! ## Concrete fixtures used by counterexamples and witnesses -/

def freshClient : ClientConnection :=
  { connected := true, send_queue := [], bytes_sent := 0 }

/-- A renderer collaborator that always returns a 1-pixel frame, and an
encoder collaborator that passes bytes through — both within the behaviour
the spec grants the collaborators (non-empty output is the normal case). -/
def testVds : VDSModel :=
  { dims := fun _ => 4, render := fun _ _ _ _ _ => [7, 7, 7] }

def idEncoder : List Nat → List Nat := fun l => l

def testSession : WebRTCSession := mkSession "s" { session_id := "s" }

def testState : ServerState :=
  { sessions := [("s", testSession)], max_sessions := 10, animation_start := 0 }

def pauseMsg : ControlMessage :=
  { type := .PAUSE_RESUME, session_id := "s", parameters := [("paused", "true")] }

/-! ## Claim C1 -/

/-- C1, as stated, is false: ClientConnection::send_loop never assigns the
`sequence` header field.  Draining a queue holding two broadcast frames emits
two FRAME headers whose sequence field was never written (`none` in the
model, an indeterminate value on the wire) — not 0 followed by 1, and not
strictly increasing. -/
theorem C1_counterexample :
    ((sendLoopMessages [[1], [2]] (fun _ => 100)).map (fun msg => msg.1.sequence)
        = [none, none]) ∧
    ¬ ((sendLoopMessages [[1], [2]] (fun _ => 100)).map (fun msg => msg.1.sequence)
        = [some 0, some 1]) := by
  decide

/-- C1 (amended): the MessageHeader record reserves a `sequence` field, but
send_loop never assigns it, so frames carry no sequence numbering.  What does
hold is the delivery-order half of the claim: across any interleaving of
broadcast enqueues and sender-loop writes, the frames a client's socket
receives are a sublist — same order, no duplication — of the frames the
server produced, and every emitted header carries the FRAME type and the
exact payload size. -/
theorem C1_amended_fifo_no_sequence :
    ∀ (es : List QueueEvent) (payload : List Nat) (ts : Nat),
      List.Sublist (runSendQueue es []).1 (enqueuedOf es) ∧
      (frameHeader payload ts).sequence = none ∧
      (frameHeader payload ts).type = some msgType_FRAME ∧
      (frameHeader payload ts).payload_size = some payload.length := by
  intro es payload ts
  exact ⟨by simpa using runSendQueue_sublist es [], rfl, rfl, rfl⟩

/-! ## Claim C3 -/

/-- C3, as stated, is false: ClientConnection::send_frame pushes onto a
std::queue with no capacity bound and no drop policy.  Enqueueing 5 frames
without draining leaves all 5 queued, not the 3 most recent. -/
theorem C3_counterexample :
    ((enqueueAll freshClient [[1], [2], [3], [4], [5]]).send_queue.length = 5) ∧
    ¬ ((enqueueAll freshClient [[1], [2], [3], [4], [5]]).send_queue
        = [[3], [4], [5]]) := by
  decide

/-- C3 (amended): send_frame is non-blocking and never drops: while the
client is connected it returns true and appends the frame to an unbounded
queue, so enqueueing any number of frames without draining leaves all of
them queued in FIFO order. -/
theorem C3_amended_unbounded_queue (c : ClientConnection)
    (frames : List (List Nat)) (h : c.connected = true) :
    (enqueueAll c frames).send_queue = c.send_queue ++ frames ∧
    ∀ d, (c.send_frame d).1 = true := by
  constructor
  · induction frames generalizing c with
    | nil => simp [enqueueAll]
    | cons d rest ih =>
      have hstep : (c.send_frame d).2 =
          { c with send_queue := c.send_queue ++ [d] } := by
        simp [ClientConnection.send_frame, h]
      have hconn : (c.send_frame d).2.connected = true := by
        rw [hstep]; exact h
      have := ih (c.send_frame d).2 hconn
      simp only [enqueueAll, List.foldl_cons] at *
      rw [this, hstep]
      simp
  · intro d
    simp [ClientConnection.send_frame, h]

/-- Witness for C3 (amended) at a concrete client and frame list. -/
theorem C3_amended_witness :
    (enqueueAll freshClient [[9], [8]]).send_queue = freshClient.send_queue ++ [[9], [8]] ∧
    ∀ d, (freshClient.send_frame d).1 = true :=
  C3_amended_unbounded_queue freshClient [[9], [8]] rfl

/-! ## Claim C2 -/

/-- C2, as stated, is false: after PAUSE_RESUME{paused:true} the render loop
keeps publishing.  render_vds_frame only skips the animation-index update when
paused; it still calls the renderer, and render_session still encodes and
sends the result.  Concretely: pause the test session, run 3 ticks, and 3 new
frames have been published to it (not 0). -/
theorem C2_counterexample :
    ((findSession (handle_control_message (fun _ => 0) 0 testState pauseMsg) "s").map
        (fun p => p.2.config.paused) = some true) ∧
    ((findSession
        (render_tick (some testVds) idEncoder 3
          (render_tick (some testVds) idEncoder 2
            (render_tick (some testVds) idEncoder 1
              (handle_control_message (fun _ => 0) 0 testState pauseMsg)))) "s").map
        (fun p => p.2.frames_sent) = some 3) ∧
    ¬ ((findSession
        (render_tick (some testVds) idEncoder 3
          (render_tick (some testVds) idEncoder 2
            (render_tick (some testVds) idEncoder 1
              (handle_control_message (fun _ => 0) 0 testState pauseMsg)))) "s").map
        (fun p => p.2.frames_sent) = some 0) := by
  decide

/-- C2 (amended): `paused` freezes the animated slice index but does not stop
production.  (1) When paused, the slice index handed to the renderer is
exactly `current_slice` (the animation branch is skipped);  (2) an active
session with a video source publishes a frame on every tick on which the
renderer and encoder return data, paused or not;  (3) when unpaused (with
animation enabled and no pinned slice) the index follows the animation clock
again, so production resumes from the clock on the next tick. -/
theorem C2_amended_paused_still_publishes
    (vds : VDSModel) (enc : List Nat → List Nat) (astart now t : Rat)
    (config : SessionConfig) (sess : WebRTCSession) :
    (config.paused = true →
      render_vds_frame (some vds) config t =
        vds.render config.orientation (sliceAxisOf config.orientation)
          config.current_slice config.width config.height) ∧
    (sess.active = true → sess.video_source = true →
      render_vds_frame (some vds) sess.config
          ((now - astart) * sess.config.animation_speed) ≠ [] →
      enc (render_vds_frame (some vds) sess.config
          ((now - astart) * sess.config.animation_speed)) ≠ [] →
      (render_session (some vds) enc astart now sess).1.frames_sent = sess.frames_sent + 1 ∧
      (render_session (some vds) enc astart now sess).2 = true) ∧
    (config.paused = false → config.animate = true → config.current_slice < 0 →
      render_vds_frame (some vds) config t =
        vds.render config.orientation (sliceAxisOf config.orientation)
          (cppClamp
            (ratTrunc (cppFmod (t / config.animation_duration) 1 *
              (vds.dims (sliceAxisOf config.orientation) : Int)))
            0 (vds.dims (sliceAxisOf config.orientation) - 1))
          config.width config.height) := by
  refine ⟨?_, ?_, ?_⟩
  · intro hp
    simp [render_vds_frame, hp]
  · intro ha hv hr he
    simp [render_session, ha, hr, he, session_send_frame, hv]
  · intro hp ha hs
    simp [render_vds_frame, hp, ha, hs]

/-- Witness for C2 (amended): the paused test session still publishes a frame
on a tick. -/
theorem C2_amended_witness :
    (render_session (some testVds) idEncoder 0 1
        (update_config testSession { testSession.config with paused := true })).1.frames_sent
      = (update_config testSession { testSession.config with paused := true }).frames_sent + 1 := by
  have h := (C2_amended_paused_still_publishes testVds idEncoder 0 1 5
      { testSession.config with paused := true }
      (update_config testSession { testSession.config with paused := true })).2.1
  exact (h rfl rfl (by decide) (by decide)).1

/-! ## Claim C4 -/

/-- C4, as stated, is false: handle_control_message performs no validation of
the orientation parameter.  SLICE_ORIENTATION with the unknown orientation
"DIAGONAL" is applied verbatim and mutates the session config — the state
does change, and no InvalidParameter failure exists (the function returns
void). -/
theorem C4_counterexample :
    ((findSession (handle_control_message (fun _ => 0) 0 testState
        { type := .SLICE_ORIENTATION, session_id := "s",
          parameters := [("orientation", "DIAGONAL")] }) "s").map
        (fun p => p.2.config.orientation) = some "DIAGONAL") ∧
    ¬ (handle_control_message (fun _ => 0) 0 testState
        { type := .SLICE_ORIENTATION, session_id := "s",
          parameters := [("orientation", "DIAGONAL")] } = testState) := by
  decide

/-- C4 (amended): handle_control_message reports no failure to the caller on
any path (it returns void; its only observable behaviour is the state).
(1) SLICE_ORIENTATION applies any orientation string, valid or not, to the
session's config;  (2) an unknown session id leaves the state unchanged;
(3) a SLICE_ORIENTATION message missing its parameter leaves the state
unchanged;  (4) control types without a handler case (ANIMATION_DURATION,
FRAME_RATE) leave the state unchanged.  None of these produce an error
value. -/
theorem C4_amended_no_validation (stof : String → Rat) (now : Rat)
    (st : ServerState) (m : ControlMessage) :
    (∀ found v, findSession st m.session_id = some found →
        m.type = .SLICE_ORIENTATION → m.getParam "orientation" = some v →
        handle_control_message stof now st m =
          { st with sessions := (replaceSess st.sessions m.session_id
              (update_config found.2 { found.2.config with orientation := v })) }) ∧
    (findSession st m.session_id = none → handle_control_message stof now st m = st) ∧
    (m.type = .SLICE_ORIENTATION → m.getParam "orientation" = none →
        handle_control_message stof now st m = st) ∧
    (m.type = .ANIMATION_DURATION ∨ m.type = .FRAME_RATE →
        handle_control_message stof now st m = st) := by
  refine ⟨?_, ?_, ?_, ?_⟩
  · intro found v hf ht hp
    simp [handle_control_message, hf, ht, hp]
  · intro hf
    simp [handle_control_message, hf]
  · intro ht hp
    cases hf : findSession st m.session_id with
    | none => simp [handle_control_message, hf]
    | some found => simp [handle_control_message, hf, ht, hp]
  · intro ht
    cases hf : findSession st m.session_id with
    | none => simp [handle_control_message, hf]
    | some found =>
      rcases ht with ht | ht <;> simp [handle_control_message, hf, ht]

/-- Witness for C4 (amended): the unknown orientation "DIAGONAL" lands in the
config of the test session. -/
theorem C4_amended_witness :
    handle_control_message (fun _ => 0) 0 testState
        { type := .SLICE_ORIENTATION, session_id := "s",
          parameters := [("orientation", "DIAGONAL")] } =
      { testState with sessions := (replaceSess testState.sessions "s"
          (update_config testSession { testSession.config with orientation := "DIAGONAL" })) } := by
  have h := (C4_amended_no_validation (fun _ => 0) 0 testState
      { type := .SLICE_ORIENTATION, session_id := "s",
        parameters := [("orientation", "DIAGONAL")] }).1
  exact h ("s", testSession) "DIAGONAL" (by decide) rfl (by decide)

/-! ## Claim C5 -/

/-- A registry that is exactly at its configured session limit. -/
def limitState : ServerState :=
  { sessions := [("s1", mkSession "s1" { session_id := "s1" })]
    max_sessions := 1
    animation_start := 0 }

/-- C5, as stated, is false: create_session contains no check against
max_sessions.  With the registry at its configured limit of 1 session,
creating a session with a fresh id succeeds and stores a second session; no
SessionLimitExceeded failure path exists in the function. -/
theorem C5_counterexample :
    (limitState.sessions.length = limitState.max_sessions) ∧
    ((create_session "gen" true limitState { session_id := "s2" }).1 = "s2") ∧
    ((create_session "gen" true limitState { session_id := "s2" }).2.sessions.length = 2) := by
  decide

/-- C5 (amended): create_session never consults max_sessions.  Even when the
number of stored sessions has reached (or exceeded) the configured maximum, a
request with a fresh id succeeds and appends a new session; the only failing
path is collaborator initialization failure, which returns "" and leaves the
registry unchanged. -/
theorem C5_amended_no_limit_check (gen : String) (st : ServerState)
    (cfg : SessionConfig) (hid : ¬ cfg.session_id = "")
    (hfresh : findSession st cfg.session_id = none)
    (hfull : st.max_sessions ≤ st.sessions.length) :
    (create_session gen true st cfg =
      (cfg.session_id,
       { st with sessions := st.sessions ++ [(cfg.session_id, mkSession cfg.session_id cfg)] })) ∧
    (create_session gen false st cfg = ("", st)) := by
  constructor
  · simp [create_session, hid, hfresh]
  · simp [create_session, hid, hfresh]

/-- Witness for C5 (amended) at the full registry. -/
theorem C5_amended_witness :
    (create_session "gen" true limitState { session_id := "s2" } =
      ("s2", { limitState with sessions := limitState.sessions ++
          [("s2", mkSession "s2" { session_id := "s2" })] })) ∧
    (create_session "gen" false limitState { session_id := "s2" } = ("", limitState)) :=
  C5_amended_no_limit_check "gen" limitState { session_id := "s2" }
    (by decide) (by decide) (by decide)

/-! ## Claim C10 -/

/-- C10: create_session with an already-registered session id returns that id
and leaves the registry — the existing session, its config and its client set
— completely unchanged (webrtc_server.cpp lines 259-263 return before any
mutation). -/
theorem C10_create_existing_id (gen : String) (init_ok : Bool) (st : ServerState)
    (cfg : SessionConfig) (hid : ¬ cfg.session_id = "")
    (hexists : (findSession st cfg.session_id).isSome = true) :
    create_session gen init_ok st cfg = (cfg.session_id, st) := by
  simp [create_session, hid, hexists]

/-- Witness for C10: recreating "s1" in the populated registry is the
identity on the state. -/
theorem C10_witness :
    create_session "gen" true limitState { session_id := "s1" } = ("s1", limitState) :=
  C10_create_existing_id "gen" true limitState { session_id := "s1" }
    (by decide) (by decide)

/-! ## Claim C6 — helper lemmas on the session map -/

theorem lookupSess_eq_none_of_not_mem (l : List (String × WebRTCSession))
    (sid : String) (h : sid ∉ l.map Prod.fst) : lookupSess l sid = none := by
  induction l with
  | nil => rfl
  | cons p ps ih =>
    simp only [List.map_cons, List.mem_cons, not_or] at h
    rw [lookupSess, if_neg (fun hh => h.1 hh.symm)]
    exact ih h.2

theorem lookupSess_eraseSess_self (l : List (String × WebRTCSession))
    (sid : String) (h : (l.map Prod.fst).Nodup) :
    lookupSess (eraseSess l sid) sid = none := by
  induction l with
  | nil => rfl
  | cons p ps ih =>
    simp only [List.map_cons, List.nodup_cons] at h
    by_cases hp : p.1 = sid
    · rw [eraseSess, if_pos hp]
      exact lookupSess_eq_none_of_not_mem ps sid (hp ▸ h.1)
    · rw [eraseSess, if_neg hp, lookupSess, if_neg hp]
      exact ih h.2

theorem lookupSess_replaceSess_self (l : List (String × WebRTCSession))
    (sid : String) (v : WebRTCSession) (found : String × WebRTCSession)
    (h : lookupSess l sid = some found) :
    lookupSess (replaceSess l sid v) sid = some (sid, v) := by
  induction l with
  | nil => simp [lookupSess] at h
  | cons p ps ih =>
    by_cases hp : p.1 = sid
    · rw [replaceSess, if_pos hp, lookupSess, if_pos hp, hp]
    · rw [lookupSess, if_neg hp] at h
      rw [replaceSess, if_neg hp, lookupSess, if_neg hp]
      exact ih h

theorem replaceSess_replaceSess (l : List (String × WebRTCSession))
    (sid : String) (v : WebRTCSession) :
    replaceSess (replaceSess l sid v) sid v = replaceSess l sid v := by
  induction l with
  | nil => rfl
  | cons p ps ih =>
    by_cases hp : p.1 = sid
    · rw [replaceSess, if_pos hp, replaceSess, if_pos hp, ih]
    · rw [replaceSess, if_neg hp, replaceSess, if_neg hp, ih]

theorem lookupSess_some_key_mem (l : List (String × WebRTCSession))
    (sid : String) (found : String × WebRTCSession)
    (h : lookupSess l sid = some found) : found.1 = sid ∧ found ∈ l := by
  induction l with
  | nil => simp [lookupSess] at h
  | cons p ps ih =>
    by_cases hp : p.1 = sid
    · rw [lookupSess, if_pos hp] at h
      obtain rfl : p = found := by simpa using h
      exact ⟨hp, List.mem_cons_self p ps⟩
    · rw [lookupSess, if_neg hp] at h
      obtain ⟨h1, h2⟩ := ih h
      exact ⟨h1, List.mem_cons_of_mem p h2⟩

/-! ## Claim C6 -/

/-- C6: leave_session is idempotent.  For well-formed states (the session
map has unique keys and each session's client vector and peer-connection key
set are duplicate-free, as std::unordered_map and the std::find-guarded
add_client guarantee), calling leave a second time for the same client is a
no-op: the registry and every remaining session's client set are exactly as
after the first call, and no error is reported (the function returns void on
every path). -/
theorem C6_leave_idempotent (st : ServerState) (sid cid : String)
    (hkeys : (st.sessions.map Prod.fst).Nodup)
    (hcl : ∀ p ∈ st.sessions, p.2.clients.Nodup ∧ p.2.peer_keys.Nodup) :
    leave_session (leave_session st sid cid) sid cid = leave_session st sid cid := by
  cases h1 : findSession st sid with
  | none =>
    have e1 : leave_session st sid cid = st := by
      simp [leave_session, h1]
    rw [e1]
    exact e1
  | some found =>
    obtain ⟨hkey, hmem⟩ := lookupSess_some_key_mem st.sessions sid found h1
    obtain ⟨hnodc, hnodp⟩ := hcl found hmem
    by_cases hempty : (remove_client found.2 cid).clients = []
    · have e1 : leave_session st sid cid =
          { st with sessions := eraseSess st.sessions sid } := by
        simp [leave_session, h1, hempty]
      have h2 : findSession { st with sessions := eraseSess st.sessions sid } sid = none :=
        lookupSess_eraseSess_self st.sessions sid hkeys
      rw [e1]
      simp [leave_session, h2]
    · have e1 : leave_session st sid cid =
          { st with sessions := replaceSess st.sessions sid (remove_client found.2 cid) } := by
        simp [leave_session, h1, hempty]
      have h2 : findSession
          { st with sessions := replaceSess st.sessions sid (remove_client found.2 cid) } sid
          = some (sid, remove_client found.2 cid) :=
        lookupSess_replaceSess_self st.sessions sid (remove_client found.2 cid) found h1
      have hrm : remove_client (remove_client found.2 cid) cid = remove_client found.2 cid := by
        have hc1 : cid ∉ (remove_client found.2 cid).clients :=
          List.Nodup.not_mem_erase hnodc
        have hc2 : cid ∉ (remove_client found.2 cid).peer_keys :=
          List.Nodup.not_mem_erase hnodp
        show ({ remove_client found.2 cid with
            clients := (remove_client found.2 cid).clients.erase cid
            peer_keys := (remove_client found.2 cid).peer_keys.erase cid } : WebRTCSession)
          = remove_client found.2 cid
        rw [List.erase_of_not_mem hc1, List.erase_of_not_mem hc2]
      rw [e1]
      simp only [leave_session, h2]
      rw [hrm]
      simp [hempty, replaceSess_replaceSess]

/-- Witness state for C6: one session with two registered clients. -/
def leaveState : ServerState :=
  { sessions := [("t", { mkSession "t" { session_id := "t" } with
      clients := ["c1", "c2"], peer_keys := ["c1", "c2"] })]
    max_sessions := 10
    animation_start := 0 }

/-- Witness for C6 at a concrete registry, session and client. -/
theorem C6_witness :
    leave_session (leave_session leaveState "t" "c1") "t" "c1" =
      leave_session leaveState "t" "c1" :=
  C6_leave_idempotent leaveState "t" "c1" (by decide) (by decide)

/-! ## Claim C7 -/

/-- C7, as stated, is false for the render loops it cites.  A deadline missed
by 9 frame periods (next scheduled tick at 1000 µs, now 10000 µs, period
1000 µs): WebRTCServer::render_loop skips the backlog by rescheduling from
now but increments no frames_dropped counter (its Stats struct has no such
field), and StreamingServer::render_loop does not even skip — it keeps the
stale schedule and catches up tick by tick. -/
theorem C7_counterexample :
    (webrtc_tick_schedule 0 10000 1000 = (10000, 0)) ∧
    (legacy_tick_schedule 0 10000 1000 = (1000, 0)) ∧
    ¬ ((webrtc_tick_schedule 0 10000 1000).2 = 9) := by
  decide

/-- C7 (amended): only HardwareStreamingServer::enhanced_render_loop
implements the claimed behaviour — when the deadline is missed by more than
2 whole frame periods it reschedules from now and adds the backlog size to
frames_dropped (and keeps the schedule when the miss is at most 2 periods).
WebRTCServer::render_loop reschedules from now on any miss but counts
nothing, and the legacy StreamingServer::render_loop neither skips nor
counts. -/
theorem C7_amended_only_hw_counts (next now dur : Int)
    (hbehind : next + dur < now) :
    (2 < (now - (next + dur)).toNat / dur.toNat →
      hw_tick_schedule next now dur = (now, (now - (next + dur)).toNat / dur.toNat)) ∧
    ((now - (next + dur)).toNat / dur.toNat ≤ 2 →
      hw_tick_schedule next now dur = (next + dur, 0)) ∧
    (webrtc_tick_schedule next now dur = (now, 0)) ∧
    (legacy_tick_schedule next now dur = (next + dur, 0)) := by
  refine ⟨?_, ?_, ?_, ?_⟩
  · intro hgt
    simp [hw_tick_schedule, hbehind, hgt]
  · intro hle
    simp [hw_tick_schedule, hbehind, Nat.not_lt.mpr hle]
  · simp [webrtc_tick_schedule, Int.not_lt.mpr (le_of_lt hbehind)]
  · rfl

/-- Witness for C7 (amended) at the 9-periods-late tick. -/
theorem C7_amended_witness :
    hw_tick_schedule 0 10000 1000 = (10000, 9) ∧
    webrtc_tick_schedule 0 10000 1000 = (10000, 0) ∧
    legacy_tick_schedule 0 10000 1000 = (1000, 0) := by
  have h := C7_amended_only_hw_counts 0 10000 1000 (by decide)
  refine ⟨?_, h.2.2.1, h.2.2.2⟩
  have h1 := h.1 (by decide)
  simpa using h1

/-! ## Claim C8 -/

/-- C8 is violated by an admissible schedule: the send_loop thread starts in
the ClientConnection constructor and the client is pushed into `clients_`
before the handle_client thread (which writes CONFIG) is spawned, so the
render thread can broadcast a frame to the new client and the sender thread
can write that FRAME to the socket before handle_client writes the CONFIG
message.  This trace respects every inter-thread ordering of the source, yet
the first message on the socket is a FRAME, not the CONFIG. -/
theorem C8_frame_before_config_schedule :
    connAdmissible [.addClient, .enqueueFrame, .writeFrame, .writeConfig] ∧
    socketWrites [.addClient, .enqueueFrame, .writeFrame, .writeConfig]
      = [msgType_FRAME, msgType_CONFIG] := by
  decide

/-! ## Claim C9 -/

/-- Window contents after processing a sample history from a fresh encoder:
exactly the last (up to) 60 samples, oldest first. -/
theorem processAll_window (samples : List Rat) :
    (samples.foldl update_performance_stats encoderPerfInit).encode_times
      = samples.drop (samples.length - 60) := by
  induction samples using List.reverseRecOn with
  | nil => rfl
  | append_singleton hist t ih =>
    rw [List.foldl_append, List.foldl_cons, List.foldl_nil]
    simp only [update_performance_stats, ih]
    have hL : (hist ++ [t]).length = hist.length + 1 := by simp
    rw [hL]
    by_cases hn : hist.length < 60
    · have h0 : hist.length - 60 = 0 := by omega
      have h1 : hist.length + 1 - 60 = 0 := by omega
      have hlen : ¬ 60 < (List.drop (hist.length - 60) hist ++ [t]).length := by
        rw [h0]
        simp
        omega
      rw [if_neg hlen]
      simp [h0, h1]
    · have h60 : 60 ≤ hist.length := by omega
      have hlen : 60 < (List.drop (hist.length - 60) hist ++ [t]).length := by
        simp
        omega
      rw [if_pos hlen]
      rw [List.drop_append_eq_append_drop]
      rw [List.drop_drop]
      rw [List.drop_append_eq_append_drop]
      have e1 : hist.length - 60 + 1 = hist.length + 1 - 60 := by omega
      have e2 : 1 - (List.drop (hist.length - 60) hist).length = 0 := by
        simp
        omega
      have e3 : hist.length + 1 - 60 - hist.length = 0 := by omega
      rw [e1, e2, e3]

/-- C9: the encode-latency statistics keep a rolling window of the last 60
samples.  After any sequence of updates from a fresh encoder, the stored
sample list is exactly the last min(n,60) samples in arrival order (so each
update evicts the oldest entry once 60 are stored), it never exceeds 60
entries, and the reported avg/min/max are computed over exactly the stored
samples. -/
theorem C9_rolling_window (samples : List Rat) :
    ((samples.foldl update_performance_stats encoderPerfInit).encode_times
        = samples.drop (samples.length - 60)) ∧
    ((samples.foldl update_performance_stats encoderPerfInit).encode_times.length ≤ 60) ∧
    ((samples.foldl update_performance_stats encoderPerfInit).avg_encode_time_ms
        = (samples.foldl update_performance_stats encoderPerfInit).encode_times.sum /
          (((samples.foldl update_performance_stats encoderPerfInit).encode_times.length : Nat) : Rat)) ∧
    ((samples.foldl update_performance_stats encoderPerfInit).min_encode_time_ms
        = list_min (samples.foldl update_performance_stats encoderPerfInit).encode_times) ∧
    ((samples.foldl update_performance_stats encoderPerfInit).max_encode_time_ms
        = list_max (samples.foldl update_performance_stats encoderPerfInit).encode_times) := by
  refine ⟨processAll_window samples, ?_, ?_⟩
  · rw [processAll_window samples]
    simp
    omega
  · rcases List.eq_nil_or_concat samples with rfl | ⟨hist, t, rfl⟩
    · refine ⟨?_, rfl, rfl⟩
      show (0 : Rat) = 0 / ((0 : Nat) : Rat)
      norm_num
    · rw [List.concat_eq_append, List.foldl_append, List.foldl_cons, List.foldl_nil]
      exact ⟨rfl, rfl, rfl⟩

end Blustream
